import Mathlib

/-!
Shallow embedding of `src/build/settings.rs` from the landscape2 repository:
the `LandscapeSettings` data model, its validation rules, and the
file/url loading entry points. Errors are modelled as `anyhow`-style
message chains (`List String`, outermost context first): `format_err!(m)`
becomes `[m]` and `.context(c)` becomes `c :: e`.
-/

namespace Landscape

/-- An `anyhow::Error` message chain: outermost context first, the original
`format_err!` message last. -/
abbrev Err := List String

/-- Modelled from the spec: `CategoryName` from the data module (not under
`src/`) — category names are opaque string identifiers. -/
abbrev CategoryName := String

/-- Modelled from the spec: `Category` from the data module (not under
`src/`) — a named grouping with an ordered sequence of subcategory names
(strings). -/
structure Category where
  name : CategoryName
  subcategories : List String
deriving DecidableEq, Repr

/-- Colors used across the landscape UI (`Colors` struct). -/
structure Colors where
  color1 : String
  color2 : String
  color3 : String
  color4 : String
  color5 : String
  color6 : String
deriving DecidableEq, Repr

/-- Featured item rule option (`FeaturedItemRuleOption` struct). `usize`
is modelled as `Nat`. -/
structure FeaturedItemRuleOption where
  value : String
  label : Option String
  order : Option Nat
deriving DecidableEq, Repr

/-- Featured item rule information (`FeaturedItemRule` struct). -/
structure FeaturedItemRule where
  field : String
  options : List FeaturedItemRuleOption
deriving DecidableEq, Repr

/-- Grid items size (`GridItemsSize` enum, serde `rename_all = "kebab-case"`). -/
inductive GridItemsSize where
  | Small
  | Medium
  | Large
deriving DecidableEq, Repr

/-- Landscape group (`Group` struct). -/
structure Group where
  name : String
  categories : List CategoryName
deriving DecidableEq, Repr

/-- Images urls (`Images` struct); all four fields are optional and
skipped on serialization when absent. -/
structure Images where
  favicon : Option String
  footer_logo : Option String
  header_logo : Option String
  open_graph : Option String
deriving DecidableEq, Repr

/-- Social networks urls (`SocialNetworks` struct); all ten fields are
optional and skipped on serialization when absent. -/
structure SocialNetworks where
  facebook : Option String
  flickr : Option String
  github : Option String
  instagram : Option String
  linkedin : Option String
  slack : Option String
  twitch : Option String
  twitter : Option String
  wechat : Option String
  youtube : Option String
deriving DecidableEq, Repr

/-- Landscape settings (`LandscapeSettings` struct), fields in source
declaration order. -/
structure LandscapeSettings where
  foundation : String
  images : Images
  categories : Option (List Category)
  colors : Option Colors
  featured_items : Option (List FeaturedItemRule)
  grid_items_size : Option GridItemsSize
  groups : Option (List Group)
  members_category : Option String
  social_networks : Option SocialNetworks
deriving DecidableEq, Repr

/-- The settings source descriptor (`SettingsSource`): an optional local
file path and an optional remote url. Paths are modelled as strings. -/
structure SettingsSource where
  settings_file : Option String
  settings_url : Option String
deriving DecidableEq, Repr

/-!
Regular expressions over characters, with Brzozowski-derivative matching.
This embeds the semantics of the `regex` crate's `Regex::is_match`, which
succeeds when the pattern matches anywhere in the haystack (an unanchored,
substring search). Lazy quantifiers (`*?`) only affect which match is
reported, not whether a match exists, so they are modelled as plain stars.
-/

/-- Regular expressions over `Char`, with character classes as boolean
predicates. -/
inductive RE where
  | emp
  | eps
  | cls (p : Char → Bool)
  | alt (a b : RE)
  | seq (a b : RE)
  | star (a : RE)

/-- Does the regex accept the empty string? -/
def RE.nullable : RE → Bool
  | .emp => false
  | .eps => true
  | .cls _ => false
  | .alt a b => a.nullable || b.nullable
  | .seq a b => a.nullable && b.nullable
  | .star _ => true

/-- Smart alternation constructor, pruning the empty regex. -/
def RE.salt : RE → RE → RE
  | .emp, b => b
  | a, .emp => a
  | a, b => .alt a b

/-- Smart concatenation constructor, pruning the empty regex and the
empty-string regex. -/
def RE.sseq : RE → RE → RE
  | .emp, _ => .emp
  | _, .emp => .emp
  | .eps, b => b
  | a, .eps => a
  | a, b => .seq a b

/-- Brzozowski derivative of a regex with respect to one character. -/
def RE.deriv : RE → Char → RE
  | .emp, _ => .emp
  | .eps, _ => .emp
  | .cls p, c => if p c then .eps else .emp
  | .alt a b, c => .salt (a.deriv c) (b.deriv c)
  | .seq a b, c =>
    if a.nullable then .salt (.sseq (a.deriv c) b) (b.deriv c)
    else .sseq (a.deriv c) b
  | .star a, c => .sseq (a.deriv c) (.star a)

/-- Derivative-based full-string matcher. -/
def RE.matchList (r : RE) : List Char → Bool
  | [] => r.nullable
  | c :: s => (r.deriv c).matchList s

/-- Iterated concatenation of a language, for the semantics of `star`. -/
inductive Star (P : List Char → Prop) : List Char → Prop where
  | nil : Star P []
  | cons {s t : List Char} : P s → Star P t → Star P (s ++ t)

/-- Language semantics of regular expressions. -/
def RE.Lang : RE → List Char → Prop
  | .emp, _ => False
  | .eps, s => s = []
  | .cls p, s => ∃ c, p c = true ∧ s = [c]
  | .alt a b, s => a.Lang s ∨ b.Lang s
  | .seq a b, s => ∃ u v, s = u ++ v ∧ a.Lang u ∧ b.Lang v
  | .star a, s => Star a.Lang s

/-!
The `RGBA` regular expression from `settings.rs`:

  rgba?\(((25[0-5]|2[0-4]\d|1\d{1,2}|\d\d?)\s*,\s*?){2}(25[0-5]|2[0-4]\d|1\d{1,2}|\d\d?)\s*,?\s*([01]\.?\d*?)\)

translated piecewise below. `\d` is modelled as the ASCII digits `[0-9]`
(the crate's Unicode-aware `\d` also admits non-ASCII decimal digits,
which none of the properties below touch); `\s` is Unicode whitespace
(the regex crate's default for `\s`).
-/

/-- Character class of `\s` in the regex crate: the Unicode White_Space
code points. -/
def isSpaceRe (c : Char) : Bool :=
  let n := c.toNat
  (9 ≤ n && n ≤ 13) || n == 32 || n == 0x85 || n == 0xA0 || n == 0x1680 ||
    (0x2000 ≤ n && n ≤ 0x200A) || n == 0x2028 || n == 0x2029 ||
    n == 0x202F || n == 0x205F || n == 0x3000

/-- Single-character regex. -/
def chrRE (a : Char) : RE := .cls (fun c => c == a)

/-- Character-range regex, for `[0-5]` and `[0-4]`. -/
def rngRE (lo hi : Char) : RE := .cls (fun c => lo ≤ c && c ≤ hi)

/-- The `\d` class. -/
def digitRE : RE := .cls Char.isDigit

/-- The `\s*` (and `\s*?`) subpattern. -/
def wsStar : RE := .star (.cls isSpaceRe)

/-- An optional regex, for `?`. -/
def optRE (r : RE) : RE := .alt r .eps

/-- Literal-string regex. -/
def litRE (s : String) : RE := s.data.foldr (fun c r => .seq (chrRE c) r) .eps

/-- The channel subpattern `(25[0-5]|2[0-4]\d|1\d{1,2}|\d\d?)`. -/
def channelRE : RE :=
  .alt (.seq (litRE "25") (rngRE '0' '5'))
    (.alt (.seq (chrRE '2') (.seq (rngRE '0' '4') digitRE))
      (.alt (.seq (chrRE '1') (.seq digitRE (optRE digitRE)))
        (.seq digitRE (optRE digitRE))))

/-- One repetition of the group `((25[0-5]|...|\d\d?)\s*,\s*?)`. -/
def channelCommaRE : RE :=
  .seq channelRE (.seq wsStar (.seq (chrRE ',') wsStar))

/-- The alpha subpattern `([01]\.?\d*?)`. -/
def alphaRE : RE :=
  .seq (.cls (fun c => c == '0' || c == '1'))
    (.seq (optRE (chrRE '.')) (.star digitRE))

/-- The full `RGBA` pattern from the `lazy_static` block in `settings.rs`. -/
def RGBA : RE :=
  .seq (litRE "rgb") (.seq (optRE (chrRE 'a')) (.seq (chrRE '(')
    (.seq channelCommaRE (.seq channelCommaRE (.seq channelRE
      (.seq wsStar (.seq (optRE (chrRE ',')) (.seq wsStar
        (.seq alphaRE (chrRE ')'))))))))))

/-- Any single character. -/
def anyCharRE : RE := .cls (fun _ => true)

/-- The unanchored-search regex corresponding to `RGBA.is_match`: the
pattern may occur anywhere in the haystack. -/
def searchRGBA : RE := .seq (.star anyCharRE) (.seq RGBA (.star anyCharRE))

/-- The matcher `RGBA.is_match` on a list of characters. -/
def rgbaIsMatchL (l : List Char) : Bool := searchRGBA.matchList l

/-- The check `RGBA.is_match(value)` from `validate_colors`. -/
def rgbaIsMatch (s : String) : Bool := rgbaIsMatchL s.data

/-!
The validation rules of `LandscapeSettings::validate` and its helpers,
mirroring `settings.rs` lines 93-234. Each helper takes the field it
inspects (in Rust they take `&self` and read that field).
-/

/-- Subcategories loop of `validate_categories`: `i` is the inner
enumerate index. -/
def checkSubcategories (category_id : String) (i : Nat) :
    List String → Except Err Unit
  | [] => .ok ()
  | sub :: rest =>
    if sub.isEmpty then
      .error ["category [" ++ category_id ++ "]: subcategory [" ++
        toString i ++ "] cannot be empty"]
    else checkSubcategories category_id (i + 1) rest

/-- Loop body of `validate_categories`: `i` is the enumerate index. -/
def checkCategory (i : Nat) (category : Category) : Except Err Unit :=
  let category_id := if category.name.isEmpty then toString i else category.name
  if category.name.isEmpty then
    .error ["category [" ++ category_id ++ "] name cannot be empty"]
  else
    checkSubcategories category_id 0 category.subcategories

/-- The enumerate loop of `validate_categories`. -/
def checkCategories (i : Nat) : List Category → Except Err Unit
  | [] => .ok ()
  | c :: rest =>
    match checkCategory i c with
    | .error e => .error e
    | .ok _ => checkCategories (i + 1) rest

/-- The method `LandscapeSettings::validate_categories`. -/
def validateCategories : Option (List Category) → Except Err Unit
  | none => .ok ()
  | some categories => checkCategories 0 categories

/-- The per-slot loop of `validate_colors`, over `(name, value)` pairs. -/
def checkColors : List (String × String) → Except Err Unit
  | [] => .ok ()
  | (name, value) :: rest =>
    if rgbaIsMatch value then checkColors rest
    else .error [name ++ " is not valid (format: \"rgba(0, 107, 204, 1)\")"]

/-- The method `LandscapeSettings::validate_colors`. -/
def validateColors : Option Colors → Except Err Unit
  | none => .ok ()
  | some colors =>
    checkColors [("color1", colors.color1), ("color2", colors.color2),
      ("color3", colors.color3), ("color4", colors.color4),
      ("color5", colors.color5), ("color6", colors.color6)]

/-- The `rule_id` of a featured-item rule: its field name, or the
enumerate index if the field is empty. -/
def ruleId (i : Nat) (rule : FeaturedItemRule) : String :=
  if rule.field.isEmpty then toString i else rule.field

/-- The context message `rule [{rule_id}] is not valid (field: [{field}])`
attached to every violation inside a featured-item rule. -/
def ruleCtx (i : Nat) (rule : FeaturedItemRule) : String :=
  "rule [" ++ ruleId i rule ++ "] is not valid (field: [" ++ rule.field ++ "])"

/-- The options loop of `validate_featured_items`: each option's value
must be non-empty and its label, when present, non-empty. -/
def checkOptions (ctx : String) : List FeaturedItemRuleOption → Except Err Unit
  | [] => .ok ()
  | option :: rest =>
    if option.value.isEmpty then .error [ctx, "option value cannot be empty"]
    else
      match option.label with
      | some label =>
        if label.isEmpty then .error [ctx, "option label cannot be empty"]
        else checkOptions ctx rest
      | none => checkOptions ctx rest

/-- Loop body of `validate_featured_items` for one rule. -/
def checkRule (i : Nat) (rule : FeaturedItemRule) : Except Err Unit :=
  let ctx := ruleCtx i rule
  if rule.field.isEmpty then .error [ctx, "field cannot be empty"]
  else if rule.options.isEmpty then .error [ctx, "options cannot be empty"]
  else checkOptions ctx rule.options

/-- The enumerate loop of `validate_featured_items`. -/
def checkRules (i : Nat) : List FeaturedItemRule → Except Err Unit
  | [] => .ok ()
  | r :: rest =>
    match checkRule i r with
    | .error e => .error e
    | .ok _ => checkRules (i + 1) rest

/-- The method `LandscapeSettings::validate_featured_items`. -/
def validateFeaturedItems : Option (List FeaturedItemRule) → Except Err Unit
  | none => .ok ()
  | some featured_items => checkRules 0 featured_items

/-- Categories loop of `validate_groups`: `category_index` is the inner
enumerate index. -/
def checkGroupCategories (group_id : String) (category_index : Nat) :
    List CategoryName → Except Err Unit
  | [] => .ok ()
  | category :: rest =>
    if category.isEmpty then
      .error ["group [" ++ group_id ++ "]: category [" ++
        toString category_index ++ "] cannot be empty"]
    else checkGroupCategories group_id (category_index + 1) rest

/-- Loop body of `validate_groups` for one group. -/
def checkGroup (i : Nat) (group : Group) : Except Err Unit :=
  let group_id := if group.name.isEmpty then toString i else group.name
  if group.name.isEmpty then
    .error ["group [" ++ group_id ++ "] name cannot be empty"]
  else
    checkGroupCategories group_id 0 group.categories

/-- The enumerate loop of `validate_groups`. -/
def checkGroups (i : Nat) : List Group → Except Err Unit
  | [] => .ok ()
  | g :: rest =>
    match checkGroup i g with
    | .error e => .error e
    | .ok _ => checkGroups (i + 1) rest

/-- The method `LandscapeSettings::validate_groups`. -/
def validateGroups : Option (List Group) → Except Err Unit
  | none => .ok ()
  | some groups => checkGroups 0 groups

/-- The inline foundation check at the top of `validate`. -/
def checkFoundation (s : LandscapeSettings) : Except Err Unit :=
  if s.foundation.isEmpty then .error ["foundation cannot be empty"]
  else .ok ()

/-- The inline members-category check of `validate`. -/
def checkMembersCategory (s : LandscapeSettings) : Except Err Unit :=
  match s.members_category with
  | some members_category =>
    if members_category.isEmpty then
      .error ["members category cannot be empty"]
    else .ok ()
  | none => .ok ()

/-- The method `LandscapeSettings::validate`: the two inline checks followed by the
four helper validators, with the `?` operator's early return on the first
error. -/
def validate (s : LandscapeSettings) : Except Err Unit := do
  if s.foundation.isEmpty then
    throw ["foundation cannot be empty"]
  if let some members_category := s.members_category then
    if members_category.isEmpty then
      throw ["members category cannot be empty"]
  validateCategories s.categories
  validateColors s.colors
  validateFeaturedItems s.featured_items
  validateGroups s.groups

/-- Shared tail of `new_from_file` (lines 70-73) and `new_from_url`
(lines 86-89): validate the parsed settings and wrap a validation error
in the fixed context. The reading/fetching and YAML parsing stage is
abstracted as the `Except`-valued argument, since `fs`, `reqwest` and
`serde_yaml` are external collaborators. -/
def validateParsed (parsed : Except Err LandscapeSettings) :
    Except Err LandscapeSettings :=
  match parsed with
  | .error e => .error e
  | .ok settings =>
    match validate settings with
    | .error e => .error ("the landscape settings file provided is not valid" :: e)
    | .ok _ => .ok settings

/-- The method `LandscapeSettings::new_from_file`, as a function of the combined
read-and-parse outcome for the given file. -/
def new_from_file (readParse : Except Err LandscapeSettings) :
    Except Err LandscapeSettings :=
  validateParsed readParse

/-- The method `LandscapeSettings::new_from_url`, as a function of the combined
fetch-status-check-and-parse outcome for the given url. -/
def new_from_url (fetchParse : Except Err LandscapeSettings) :
    Except Err LandscapeSettings :=
  validateParsed fetchParse

/-- The method `LandscapeSettings::new`: try the file, then the url, else fail.
The file system and network are abstracted as the two loader oracles,
each giving the read-and-parse outcome for a path or url. -/
def new (fileLoader : String → Except Err LandscapeSettings)
    (urlLoader : String → Except Err LandscapeSettings)
    (src : SettingsSource) : Except Err LandscapeSettings :=
  match src.settings_file with
  | some file => new_from_file (fileLoader file)
  | none =>
    match src.settings_url with
    | some url => new_from_url (urlLoader url)
    | none => .error ["settings file or url not provided"]

/-!
Serialization model for the round-trip property. `serde_yaml` text is
modelled as a tree of YAML values; the encoders and decoders below follow
the serde derive rules for the struct declarations in `settings.rs`:
mapping keys are the field names in declaration order, `Option` fields
with `skip_serializing_if = "Option::is_none"` are omitted when absent
and default to `None` when missing, and `GridItemsSize` uses its
`kebab-case` renamed variant strings. `Category` is modelled from the
spec (its declaration lives in the data module, not under `src/`).
-/

/-- A YAML value tree. -/
inductive Yaml where
  | str (s : String)
  | num (n : Nat)
  | arr (xs : List Yaml)
  | map (kvs : List (String × Yaml))

/-- First-match key lookup in a YAML mapping. -/
def Yaml.lookup : List (String × Yaml) → String → Option Yaml
  | [], _ => none
  | (k, v) :: rest, key => if k == key then some v else Yaml.lookup rest key

/-- Decode a YAML string scalar. -/
def Yaml.getStr : Yaml → Option String
  | .str s => some s
  | _ => none

/-- Decode a YAML non-negative integer scalar. -/
def Yaml.getNat : Yaml → Option Nat
  | .num n => some n
  | _ => none

/-- Decode a YAML sequence node. -/
def Yaml.getArr : Yaml → Option (List Yaml)
  | .arr xs => some xs
  | _ => none

/-- Mapping entries of one optional field: omitted when the value is
absent (`skip_serializing_if = "Option::is_none"`). -/
def optEntry (k : String) (f : α → Yaml) : Option α → List (String × Yaml)
  | none => []
  | some v => [(k, f v)]

/-- Decode a required field. -/
def getReq (dec : Yaml → Option α) (kvs : List (String × Yaml))
    (k : String) : Option α :=
  match Yaml.lookup kvs k with
  | none => none
  | some y => dec y

/-- Decode an optional field: a missing key is `none`. -/
def getOpt (dec : Yaml → Option α) (kvs : List (String × Yaml))
    (k : String) : Option (Option α) :=
  match Yaml.lookup kvs k with
  | none => some none
  | some y => (dec y).map some

/-- Decode every element of a YAML sequence. -/
def decodeAll (dec : Yaml → Option α) : List Yaml → Option (List α)
  | [] => some []
  | y :: rest => do
    let a ← dec y
    let as ← decodeAll dec rest
    pure (a :: as)

/-- Decode a required sequence-valued field elementwise. -/
def getReqList (dec : Yaml → Option α) (kvs : List (String × Yaml))
    (k : String) : Option (List α) :=
  getReq (fun y => y.getArr.bind (decodeAll dec)) kvs k

/-- Decode an optional sequence-valued field elementwise. -/
def getOptList (dec : Yaml → Option α) (kvs : List (String × Yaml))
    (k : String) : Option (Option (List α)) :=
  getOpt (fun y => y.getArr.bind (decodeAll dec)) kvs k

def Category.toYaml (c : Category) : Yaml :=
  .map [("name", .str c.name), ("subcategories", .arr (c.subcategories.map .str))]

def Category.fromYaml : Yaml → Option Category
  | .map kvs => do
    let name ← getReq Yaml.getStr kvs "name"
    let subcategories ← getReqList Yaml.getStr kvs "subcategories"
    pure ⟨name, subcategories⟩
  | _ => none

def Colors.toYaml (c : Colors) : Yaml :=
  .map [("color1", .str c.color1), ("color2", .str c.color2),
    ("color3", .str c.color3), ("color4", .str c.color4),
    ("color5", .str c.color5), ("color6", .str c.color6)]

def Colors.fromYaml : Yaml → Option Colors
  | .map kvs => do
    let color1 ← getReq Yaml.getStr kvs "color1"
    let color2 ← getReq Yaml.getStr kvs "color2"
    let color3 ← getReq Yaml.getStr kvs "color3"
    let color4 ← getReq Yaml.getStr kvs "color4"
    let color5 ← getReq Yaml.getStr kvs "color5"
    let color6 ← getReq Yaml.getStr kvs "color6"
    pure ⟨color1, color2, color3, color4, color5, color6⟩
  | _ => none

def FeaturedItemRuleOption.toYaml (o : FeaturedItemRuleOption) : Yaml :=
  .map ([("value", .str o.value)] ++ optEntry "label" .str o.label ++
    optEntry "order" .num o.order)

def FeaturedItemRuleOption.fromYaml : Yaml → Option FeaturedItemRuleOption
  | .map kvs => do
    let value ← getReq Yaml.getStr kvs "value"
    let label ← getOpt Yaml.getStr kvs "label"
    let order ← getOpt Yaml.getNat kvs "order"
    pure ⟨value, label, order⟩
  | _ => none

def FeaturedItemRule.toYaml (r : FeaturedItemRule) : Yaml :=
  .map [("field", .str r.field),
    ("options", .arr (r.options.map FeaturedItemRuleOption.toYaml))]

def FeaturedItemRule.fromYaml : Yaml → Option FeaturedItemRule
  | .map kvs => do
    let field ← getReq Yaml.getStr kvs "field"
    let options ← getReqList FeaturedItemRuleOption.fromYaml kvs "options"
    pure ⟨field, options⟩
  | _ => none

def GridItemsSize.toYaml : GridItemsSize → Yaml
  | .Small => .str "small"
  | .Medium => .str "medium"
  | .Large => .str "large"

def GridItemsSize.fromYaml : Yaml → Option GridItemsSize
  | .str "small" => some .Small
  | .str "medium" => some .Medium
  | .str "large" => some .Large
  | _ => none

def Group.toYaml (g : Group) : Yaml :=
  .map [("name", .str g.name), ("categories", .arr (g.categories.map .str))]

def Group.fromYaml : Yaml → Option Group
  | .map kvs => do
    let name ← getReq Yaml.getStr kvs "name"
    let categories ← getReqList Yaml.getStr kvs "categories"
    pure ⟨name, categories⟩
  | _ => none

def Images.toYaml (x : Images) : Yaml :=
  .map (optEntry "favicon" .str x.favicon ++
    optEntry "footer_logo" .str x.footer_logo ++
    optEntry "header_logo" .str x.header_logo ++
    optEntry "open_graph" .str x.open_graph)

def Images.fromYaml : Yaml → Option Images
  | .map kvs => do
    let favicon ← getOpt Yaml.getStr kvs "favicon"
    let footer_logo ← getOpt Yaml.getStr kvs "footer_logo"
    let header_logo ← getOpt Yaml.getStr kvs "header_logo"
    let open_graph ← getOpt Yaml.getStr kvs "open_graph"
    pure ⟨favicon, footer_logo, header_logo, open_graph⟩
  | _ => none

def SocialNetworks.toYaml (x : SocialNetworks) : Yaml :=
  .map (optEntry "facebook" .str x.facebook ++
    optEntry "flickr" .str x.flickr ++
    optEntry "github" .str x.github ++
    optEntry "instagram" .str x.instagram ++
    optEntry "linkedin" .str x.linkedin ++
    optEntry "slack" .str x.slack ++
    optEntry "twitch" .str x.twitch ++
    optEntry "twitter" .str x.twitter ++
    optEntry "wechat" .str x.wechat ++
    optEntry "youtube" .str x.youtube)

def SocialNetworks.fromYaml : Yaml → Option SocialNetworks
  | .map kvs => do
    let facebook ← getOpt Yaml.getStr kvs "facebook"
    let flickr ← getOpt Yaml.getStr kvs "flickr"
    let github ← getOpt Yaml.getStr kvs "github"
    let instagram ← getOpt Yaml.getStr kvs "instagram"
    let linkedin ← getOpt Yaml.getStr kvs "linkedin"
    let slack ← getOpt Yaml.getStr kvs "slack"
    let twitch ← getOpt Yaml.getStr kvs "twitch"
    let twitter ← getOpt Yaml.getStr kvs "twitter"
    let wechat ← getOpt Yaml.getStr kvs "wechat"
    let youtube ← getOpt Yaml.getStr kvs "youtube"
    pure ⟨facebook, flickr, github, instagram, linkedin, slack, twitch,
      twitter, wechat, youtube⟩
  | _ => none

def LandscapeSettings.toYaml (s : LandscapeSettings) : Yaml :=
  .map ([("foundation", .str s.foundation), ("images", s.images.toYaml)] ++
    optEntry "categories" (fun cs => .arr (cs.map Category.toYaml)) s.categories ++
    optEntry "colors" Colors.toYaml s.colors ++
    optEntry "featured_items"
      (fun fs => .arr (fs.map FeaturedItemRule.toYaml)) s.featured_items ++
    optEntry "grid_items_size" GridItemsSize.toYaml s.grid_items_size ++
    optEntry "groups" (fun gs => .arr (gs.map Group.toYaml)) s.groups ++
    optEntry "members_category" .str s.members_category ++
    optEntry "social_networks" SocialNetworks.toYaml s.social_networks)

def LandscapeSettings.fromYaml : Yaml → Option LandscapeSettings
  | .map kvs => do
    let foundation ← getReq Yaml.getStr kvs "foundation"
    let images ← getReq Images.fromYaml kvs "images"
    let categories ← getOptList Category.fromYaml kvs "categories"
    let colors ← getOpt Colors.fromYaml kvs "colors"
    let featured_items ← getOptList FeaturedItemRule.fromYaml kvs "featured_items"
    let grid_items_size ← getOpt GridItemsSize.fromYaml kvs "grid_items_size"
    let groups ← getOptList Group.fromYaml kvs "groups"
    let members_category ← getOpt Yaml.getStr kvs "members_category"
    let social_networks ← getOpt SocialNetworks.fromYaml kvs "social_networks"
    pure ⟨foundation, images, categories, colors, featured_items,
      grid_items_size, groups, members_category, social_networks⟩
  | _ => none

/-- First-error composition of a list of check outcomes, used to state
the fail-fast shape of `validate`. -/
def runChecks : List (Except Err Unit) → Except Err Unit
  | [] => .ok ()
  | .error e :: _ => .error e
  | .ok _ :: rest => runChecks rest

/-- A minimal valid settings value, used as a concrete test fixture. -/
def sampleSettings : LandscapeSettings :=
  { foundation := "CNCF"
    images := { favicon := none, footer_logo := none, header_logo := none,
                open_graph := none }
    categories := none
    colors := none
    featured_items := none
    grid_items_size := none
    groups := none
    members_category := none
    social_networks := none }

/-- A settings value whose foundation is the empty string, used as a
concrete invalid fixture. -/
def emptyFoundationSettings : LandscapeSettings :=
  { sampleSettings with foundation := "" }

/-- A colors block whose six slots all hold the documented example value
`rgba(0, 107, 204, 1)`. -/
def sampleColors : Colors :=
  { color1 := "rgba(0, 107, 204, 1)", color2 := "rgba(0, 107, 204, 1)"
    color3 := "rgba(0, 107, 204, 1)", color4 := "rgba(0, 107, 204, 1)"
    color5 := "rgba(0, 107, 204, 1)", color6 := "rgba(0, 107, 204, 1)" }

theorem RE.nullable_iff (r : RE) : r.nullable = true ↔ r.Lang [] := by
  induction r with
  | emp => simp [RE.nullable, RE.Lang]
  | eps => simp [RE.nullable, RE.Lang]
  | cls p => simp [RE.nullable, RE.Lang]
  | alt a b iha ihb => simp [RE.nullable, RE.Lang, iha, ihb]
  | seq a b iha ihb =>
    simp only [RE.nullable, RE.Lang, Bool.and_eq_true, iha, ihb]
    constructor
    · rintro ⟨ha, hb⟩
      exact ⟨[], [], rfl, ha, hb⟩
    · rintro ⟨u, v, huv, ha, hb⟩
      rcases List.append_eq_nil.mp huv.symm with ⟨hu, hv⟩
      subst hu; subst hv
      exact ⟨ha, hb⟩
  | star a _ =>
    simp only [RE.nullable, RE.Lang, true_iff]
    exact Star.nil

theorem RE.lang_salt (a b : RE) (s : List Char) :
    (RE.salt a b).Lang s ↔ (a.Lang s ∨ b.Lang s) := by
  cases a <;> cases b <;> simp [RE.salt, RE.Lang]

theorem RE.lang_seq_emp_left (b : RE) (s : List Char) :
    (RE.seq .emp b).Lang s ↔ False := by
  simp [RE.Lang]

theorem RE.lang_seq_emp_right (a : RE) (s : List Char) :
    (RE.seq a .emp).Lang s ↔ False := by
  simp [RE.Lang]

theorem RE.lang_seq_eps_left (b : RE) (s : List Char) :
    (RE.seq .eps b).Lang s ↔ b.Lang s := by
  simp only [RE.Lang]
  constructor
  · rintro ⟨u, v, rfl, rfl, hb⟩
    simpa using hb
  · intro hb
    exact ⟨[], s, rfl, rfl, hb⟩

theorem RE.lang_seq_eps_right (a : RE) (s : List Char) :
    (RE.seq a .eps).Lang s ↔ a.Lang s := by
  simp only [RE.Lang]
  constructor
  · rintro ⟨u, v, rfl, ha, rfl⟩
    simpa using ha
  · intro ha
    exact ⟨s, [], (List.append_nil s).symm, ha, rfl⟩

theorem RE.lang_sseq (a b : RE) (s : List Char) :
    (RE.sseq a b).Lang s ↔ (RE.seq a b).Lang s := by
  cases a <;> cases b <;>
    simp only [RE.sseq, RE.lang_seq_emp_left, RE.lang_seq_emp_right,
      RE.lang_seq_eps_left, RE.lang_seq_eps_right] <;>
    simp [RE.Lang]

theorem Star.cons_inv (P : List Char → Prop) (t : List Char) (h : Star P t) :
    ∀ (c : Char) (s : List Char), t = c :: s →
      ∃ u v, s = u ++ v ∧ P (c :: u) ∧ Star P v := by
  induction h with
  | nil => intro c s hcs; cases hcs
  | @cons s1 s2 hp hst ih =>
    intro c s hcs
    cases s1 with
    | nil =>
      simp only [List.nil_append] at hcs
      exact ih c s hcs
    | cons c1 s1' =>
      simp only [List.cons_append, List.cons.injEq] at hcs
      rcases hcs with ⟨hc, hs⟩
      subst hc
      exact ⟨s1', s2, hs.symm, hp, hst⟩

theorem RE.deriv_iff (r : RE) (c : Char) :
    ∀ s, (r.deriv c).Lang s ↔ r.Lang (c :: s) := by
  induction r with
  | emp => intro s; simp [RE.deriv, RE.Lang]
  | eps => intro s; simp [RE.deriv, RE.Lang]
  | cls p =>
    intro s
    rw [RE.deriv]
    by_cases h : p c = true
    · rw [if_pos h]
      simp only [RE.Lang]
      constructor
      · rintro rfl
        exact ⟨c, h, rfl⟩
      · rintro ⟨c', _, heq⟩
        simp only [List.cons.injEq] at heq
        exact heq.2
    · rw [if_neg h]
      simp only [RE.Lang, false_iff]
      rintro ⟨c', hc', heq⟩
      simp only [List.cons.injEq] at heq
      exact h (heq.1 ▸ hc')
  | alt a b iha ihb =>
    intro s
    simp [RE.deriv, RE.lang_salt, RE.Lang, iha, ihb]
  | seq a b iha ihb =>
    intro s
    by_cases hn : a.nullable = true
    · simp only [RE.deriv, hn, if_pos, RE.lang_salt, RE.lang_sseq, RE.Lang, iha, ihb]
      constructor
      · rintro (⟨u, v, rfl, ha, hb⟩ | hb)
        · exact ⟨c :: u, v, rfl, ha, hb⟩
        · exact ⟨[], c :: s, rfl, (RE.nullable_iff a).mp hn, hb⟩
      · rintro ⟨u, v, huv, ha, hb⟩
        cases u with
        | nil =>
          simp only [List.nil_append] at huv
          exact Or.inr (huv ▸ hb)
        | cons c1 u' =>
          simp only [List.cons_append, List.cons.injEq] at huv
          rcases huv with ⟨rfl, rfl⟩
          exact Or.inl ⟨u', v, rfl, ha, hb⟩
    · simp only [RE.deriv, hn, if_neg, Bool.false_eq_true, not_false_eq_true,
        RE.lang_sseq, RE.Lang, iha]
      constructor
      · rintro ⟨u, v, rfl, ha, hb⟩
        exact ⟨c :: u, v, rfl, ha, hb⟩
      · rintro ⟨u, v, huv, ha, hb⟩
        cases u with
        | nil =>
          exact absurd ((RE.nullable_iff a).mpr ha) (by simp [hn])
        | cons c1 u' =>
          simp only [List.cons_append, List.cons.injEq] at huv
          rcases huv with ⟨rfl, rfl⟩
          exact ⟨u', v, rfl, ha, hb⟩
  | star a iha =>
    intro s
    simp only [RE.deriv, RE.lang_sseq, RE.Lang, iha]
    constructor
    · rintro ⟨u, v, rfl, ha, hv⟩
      exact (List.cons_append c u v) ▸ Star.cons ha hv
    · intro h
      rcases Star.cons_inv a.Lang (c :: s) h c s rfl with ⟨u, v, rfl, ha, hv⟩
      exact ⟨u, v, rfl, ha, hv⟩

theorem RE.matchList_iff : ∀ (s : List Char) (r : RE),
    r.matchList s = true ↔ r.Lang s := by
  intro s
  induction s with
  | nil => intro r; exact RE.nullable_iff r
  | cons c s ih =>
    intro r
    rw [RE.matchList, ih (r.deriv c)]
    exact RE.deriv_iff r c s

theorem decodeAll_map (dec : Yaml → Option α) (enc : α → Yaml)
    (h : ∀ a, dec (enc a) = some a) :
    ∀ l : List α, decodeAll dec (l.map enc) = some l := by
  intro l
  induction l with
  | nil => rfl
  | cons a t ih => simp [List.map, decodeAll, h, ih]

theorem lookup_optEntry_ne {α} (k key : String) (f : α → Yaml) (v : Option α)
    (rest : List (String × Yaml)) (h : (k == key) = false) :
    Yaml.lookup (optEntry k f v ++ rest) key = Yaml.lookup rest key := by
  cases v <;> simp [optEntry, Yaml.lookup, h]

theorem lookup_optEntry_ne_nil {α} (k key : String) (f : α → Yaml)
    (v : Option α) (h : (k == key) = false) :
    Yaml.lookup (optEntry k f v) key = none := by
  cases v <;> simp [optEntry, Yaml.lookup, h]

theorem getOpt_cons_ne {α} (dec : Yaml → Option α) (k1 k : String) (y : Yaml)
    (kvs : List (String × Yaml)) (h : (k1 == k) = false) :
    getOpt dec ((k1, y) :: kvs) k = getOpt dec kvs k := by
  simp [getOpt, Yaml.lookup, h]

theorem getOpt_optEntry_ne {α β} (dec : Yaml → Option α) (k1 k : String)
    (f : β → Yaml) (v : Option β) (kvs : List (String × Yaml))
    (h : (k1 == k) = false) :
    getOpt dec (optEntry k1 f v ++ kvs) k = getOpt dec kvs k := by
  cases v <;> simp [getOpt, optEntry, Yaml.lookup, h]

theorem getOpt_optEntry_here {α} (dec : Yaml → Option α) (k : String)
    (f : α → Yaml) (v : Option α) (rest : List (String × Yaml))
    (hdec : ∀ a, dec (f a) = some a) (hrest : Yaml.lookup rest k = none) :
    getOpt dec (optEntry k f v ++ rest) k = some v := by
  cases v <;> simp [getOpt, optEntry, Yaml.lookup, hdec, hrest]

theorem getOpt_optEntry_here_nil {α} (dec : Yaml → Option α) (k : String)
    (f : α → Yaml) (v : Option α) (hdec : ∀ a, dec (f a) = some a) :
    getOpt dec (optEntry k f v) k = some v := by
  cases v <;> simp [getOpt, optEntry, Yaml.lookup, hdec]

theorem categoryRoundTrip (c : Category) :
    Category.fromYaml c.toYaml = some c := by
  rcases c with ⟨n, subs⟩
  simp [Category.toYaml, Category.fromYaml, getReq, getReqList, Yaml.lookup,
    Yaml.getStr, Yaml.getArr, decodeAll_map]

theorem colorsRoundTrip (c : Colors) : Colors.fromYaml c.toYaml = some c := rfl

theorem featuredOptionRoundTrip (o : FeaturedItemRuleOption) :
    FeaturedItemRuleOption.fromYaml o.toYaml = some o := by
  rcases o with ⟨v, l, ord⟩
  cases l <;> cases ord <;> rfl

theorem featuredRuleRoundTrip (r : FeaturedItemRule) :
    FeaturedItemRule.fromYaml r.toYaml = some r := by
  rcases r with ⟨f, opts⟩
  simp [FeaturedItemRule.toYaml, FeaturedItemRule.fromYaml, getReq,
    getReqList, Yaml.lookup, Yaml.getStr, Yaml.getArr,
    decodeAll_map _ _ featuredOptionRoundTrip]

theorem gridItemsSizeRoundTrip (g : GridItemsSize) :
    GridItemsSize.fromYaml g.toYaml = some g := by
  cases g <;> rfl

theorem groupRoundTrip (g : Group) : Group.fromYaml g.toYaml = some g := by
  rcases g with ⟨n, cats⟩
  simp [Group.toYaml, Group.fromYaml, getReq, getReqList, Yaml.lookup,
    Yaml.getStr, Yaml.getArr, decodeAll_map]

theorem imagesRoundTrip (x : Images) : Images.fromYaml x.toYaml = some x := by
  rcases x with ⟨a, b, c, d⟩
  cases a <;> cases b <;> cases c <;> cases d <;> rfl

theorem socialNetworksRoundTrip (x : SocialNetworks) :
    SocialNetworks.fromYaml x.toYaml = some x := by
  rcases x with ⟨a, b, c, d, e, f, g, h, i, j⟩
  simp [SocialNetworks.toYaml, SocialNetworks.fromYaml, List.append_assoc,
    getOpt_optEntry_ne, getOpt_optEntry_here, getOpt_optEntry_here_nil,
    lookup_optEntry_ne, lookup_optEntry_ne_nil, Yaml.getStr]

theorem settingsRoundTrip (s : LandscapeSettings) :
    LandscapeSettings.fromYaml s.toYaml = some s := by
  rcases s with ⟨f, img, cats, cols, fis, grid, gps, mc, sn⟩
  simp [LandscapeSettings.toYaml, LandscapeSettings.fromYaml,
    List.append_assoc, getReq, getOptList, Yaml.lookup, Yaml.getStr,
    Yaml.getArr, imagesRoundTrip, colorsRoundTrip, gridItemsSizeRoundTrip,
    socialNetworksRoundTrip, decodeAll_map _ _ categoryRoundTrip,
    decodeAll_map _ _ featuredRuleRoundTrip, decodeAll_map _ _ groupRoundTrip,
    getOpt_cons_ne, getOpt_optEntry_ne, getOpt_optEntry_here,
    getOpt_optEntry_here_nil, lookup_optEntry_ne, lookup_optEntry_ne_nil]

theorem runChecks_bind4 (c3 c4 c5 c6 : Except Err Unit) :
    (c3 >>= fun _ => c4 >>= fun _ => c5 >>= fun _ => c6) =
      runChecks [c3, c4, c5, c6] := by
  cases c3 with
  | error e => rfl
  | ok v =>
    cases v
    cases c4 with
    | error e => rfl
    | ok v =>
      cases v
      cases c5 with
      | error e => rfl
      | ok v =>
        cases v
        cases c6 with
        | error e => rfl
        | ok v => cases v; rfl

theorem except_throw_bind (e : Err) (f : Unit → Except Err Unit) :
    ((throw e : Except Err Unit) >>= f) = Except.error e := rfl

theorem validate_eq_runChecks (s : LandscapeSettings) :
    validate s = runChecks [checkFoundation s, checkMembersCategory s,
      validateCategories s.categories, validateColors s.colors,
      validateFeaturedItems s.featured_items, validateGroups s.groups] := by
  unfold validate checkFoundation checkMembersCategory
  cases hf : s.foundation.isEmpty with
  | true => simp [runChecks, except_throw_bind]
  | false =>
    cases hmc : s.members_category with
    | none => simp [runChecks, runChecks_bind4, except_throw_bind]
    | some mc =>
      dsimp only
      cases hmce : mc.isEmpty with
      | true => simp [runChecks, except_throw_bind]
      | false => simp [runChecks, runChecks_bind4, except_throw_bind]

theorem runChecks_ok_head (x : Except Err Unit) (l : List (Except Err Unit))
    (h : runChecks (x :: l) = .ok ()) : x = .ok () ∧ runChecks l = .ok () := by
  cases x with
  | error e => simp [runChecks] at h
  | ok v => cases v; exact ⟨rfl, h⟩

theorem validate_ok_parts (s : LandscapeSettings) (h : validate s = .ok ()) :
    checkFoundation s = .ok () ∧ checkMembersCategory s = .ok () ∧
    validateCategories s.categories = .ok () ∧
    validateColors s.colors = .ok () ∧
    validateFeaturedItems s.featured_items = .ok () ∧
    validateGroups s.groups = .ok () := by
  rw [validate_eq_runChecks] at h
  obtain ⟨h1, h⟩ := runChecks_ok_head _ _ h
  obtain ⟨h2, h⟩ := runChecks_ok_head _ _ h
  obtain ⟨h3, h⟩ := runChecks_ok_head _ _ h
  obtain ⟨h4, h⟩ := runChecks_ok_head _ _ h
  obtain ⟨h5, h⟩ := runChecks_ok_head _ _ h
  obtain ⟨h6, _⟩ := runChecks_ok_head _ _ h
  exact ⟨h1, h2, h3, h4, h5, h6⟩

theorem validate_ok_of_parts (s : LandscapeSettings)
    (h1 : checkFoundation s = .ok ()) (h2 : checkMembersCategory s = .ok ())
    (h3 : validateCategories s.categories = .ok ())
    (h4 : validateColors s.colors = .ok ())
    (h5 : validateFeaturedItems s.featured_items = .ok ())
    (h6 : validateGroups s.groups = .ok ()) : validate s = .ok () := by
  rw [validate_eq_runChecks, h1, h2, h3, h4, h5, h6]
  rfl

/-- C2: `validate` runs the six structural checks in the fixed order
foundation, members_category, categories, colors, featured items, groups,
and returns the first failing check's error without accumulating later
errors (`runChecks` stops at the first `error`). -/
theorem c2_validation_fail_fast :
    (∀ s : LandscapeSettings, validate s = runChecks [checkFoundation s,
      checkMembersCategory s, validateCategories s.categories,
      validateColors s.colors, validateFeaturedItems s.featured_items,
      validateGroups s.groups]) ∧
    (∀ (e : Err) (rest : List (Except Err Unit)),
      runChecks (.error e :: rest) = .error e) ∧
    (∀ rest : List (Except Err Unit),
      runChecks (.ok () :: rest) = runChecks rest) :=
  ⟨validate_eq_runChecks, fun _ _ => rfl, fun _ => rfl⟩

/-- C8: a settings value that validates successfully serializes (per the
serde derive rules) to a document that parses back to a field-wise equal
value, and that value validates successfully again. -/
theorem c8_round_trip (s : LandscapeSettings) (h : validate s = .ok ()) :
    LandscapeSettings.fromYaml (LandscapeSettings.toYaml s) = some s ∧
    validate s = .ok () :=
  ⟨settingsRoundTrip s, h⟩

theorem c8_round_trip_witness :
    validate sampleSettings = .ok () ∧
    (LandscapeSettings.fromYaml (LandscapeSettings.toYaml sampleSettings) =
        some sampleSettings ∧
      validate sampleSettings = .ok ()) :=
  ⟨rfl, c8_round_trip sampleSettings rfl⟩

/-- C1 (code/spec divergence): the `RGBA` regex makes the `a` and the
comma before the alpha optional but the alpha group itself mandatory, so
the three-component form `rgb(0, 0, 0)` never matches and the colors
validation rejects it; and the lazy `[01]\.?\d*?` group leaves the alpha
unbounded above, so `rgba(0, 0, 0, 1.5)` matches and is accepted. The
documented example `rgba(0, 107, 204, 1)` matches. -/
theorem c1_rgba_divergence :
    rgbaIsMatch "rgb(0, 0, 0)" = false ∧
    rgbaIsMatch "rgba(0, 0, 0, 1.5)" = true ∧
    rgbaIsMatch "rgba(0, 107, 204, 1)" = true ∧
    validateColors (some { sampleColors with color1 := "rgb(0, 0, 0)" }) =
      .error ["color1 is not valid (format: \"rgba(0, 107, 204, 1)\")"] ∧
    validateColors (some { sampleColors with color1 := "rgba(0, 0, 0, 1.5)" }) =
      .ok () :=
  ⟨by decide, by decide, by decide, by rfl, by rfl⟩

theorem starAny_lang : ∀ l : List Char, (RE.star anyCharRE).Lang l := by
  intro l
  induction l with
  | nil => exact Star.nil
  | cons c t ih => exact Star.cons ⟨c, rfl, rfl⟩ ih

/-- C9: `RGBA.is_match` is an unanchored substring search, so any value
containing a matching substring passes the colors validation; in
particular `"not-a-color rgba(0, 0, 0, 1) trailing"` in all six slots
passes `validate_colors`. -/
theorem c9_substring_colors :
    (∀ u v w : List Char, RE.matchList RGBA v = true →
      rgbaIsMatchL (u ++ v ++ w) = true) ∧
    validateColors (some
      { color1 := "not-a-color rgba(0, 0, 0, 1) trailing",
        color2 := "not-a-color rgba(0, 0, 0, 1) trailing",
        color3 := "not-a-color rgba(0, 0, 0, 1) trailing",
        color4 := "not-a-color rgba(0, 0, 0, 1) trailing",
        color5 := "not-a-color rgba(0, 0, 0, 1) trailing",
        color6 := "not-a-color rgba(0, 0, 0, 1) trailing" }) = .ok () := by
  constructor
  · intro u v w h
    have hv : RGBA.Lang v := (RE.matchList_iff v RGBA).mp h
    have hs : searchRGBA.Lang (u ++ v ++ w) :=
      ⟨u, v ++ w, List.append_assoc u v w, starAny_lang u,
        v, w, rfl, hv, starAny_lang w⟩
    exact (RE.matchList_iff _ _).mpr hs
  · rfl

theorem c9_substring_colors_witness :
    RE.matchList RGBA "rgba(0, 0, 0, 1)".data = true ∧
    rgbaIsMatchL ("not-a-color ".data ++ "rgba(0, 0, 0, 1)".data ++
      " trailing".data) = true :=
  ⟨by decide, c9_substring_colors.1 _ _ _ (by decide)⟩

/-- C5: when the source descriptor has a file path set, `new` loads from
the file; the url loader is never consulted (the result is the same for
any two url loaders). -/
theorem c5_file_priority
    (fileLoader urlLoader urlLoader' : String → Except Err LandscapeSettings)
    (src : SettingsSource) (file : String)
    (h : src.settings_file = some file) :
    new fileLoader urlLoader src = new_from_file (fileLoader file) ∧
    new fileLoader urlLoader src = new fileLoader urlLoader' src := by
  unfold new
  rw [h]
  exact ⟨rfl, rfl⟩

theorem c5_file_priority_witness :
    new (fun _ => Except.ok sampleSettings)
        (fun _ => Except.error ["network unreachable"])
        ⟨some "settings.yml", some "https://example.org/settings.yml"⟩ =
      new_from_file ((fun _ => Except.ok sampleSettings) "settings.yml") ∧
    new (fun _ => Except.ok sampleSettings)
        (fun _ => Except.error ["network unreachable"])
        ⟨some "settings.yml", some "https://example.org/settings.yml"⟩ =
      new (fun _ => Except.ok sampleSettings)
        (fun _ => Except.ok emptyFoundationSettings)
        ⟨some "settings.yml", some "https://example.org/settings.yml"⟩ :=
  c5_file_priority _ _ _ _ "settings.yml" rfl

/-- C6: when neither the file path nor the url is set, `new` fails with
the `settings file or url not provided` error, and neither loader oracle
is consulted (the result is the same for any loaders). -/
theorem c6_no_source
    (fileLoader fileLoader' urlLoader urlLoader' :
      String → Except Err LandscapeSettings)
    (src : SettingsSource) (hf : src.settings_file = none)
    (hu : src.settings_url = none) :
    new fileLoader urlLoader src =
      .error ["settings file or url not provided"] ∧
    new fileLoader urlLoader src = new fileLoader' urlLoader' src := by
  unfold new
  rw [hf, hu]
  exact ⟨rfl, rfl⟩

theorem c6_no_source_witness :
    new (fun _ => Except.ok sampleSettings) (fun _ => Except.ok sampleSettings)
        ⟨none, none⟩ =
      .error ["settings file or url not provided"] ∧
    new (fun _ => Except.ok sampleSettings) (fun _ => Except.ok sampleSettings)
        ⟨none, none⟩ =
      new (fun _ => Except.error ["io failure"])
        (fun _ => Except.error ["network unreachable"]) ⟨none, none⟩ :=
  c6_no_source _ _ _ _ ⟨none, none⟩ rfl rfl

/-- C4 counterexample: on a parsed-but-invalid settings value the error
context produced by `new_from_file` is the string
`the landscape settings file provided is not valid`, not
`the settings provided are not valid` as the claim states. -/
theorem c4_context_counterexample :
    new_from_file (Except.ok emptyFoundationSettings) =
      .error ["the landscape settings file provided is not valid",
        "foundation cannot be empty"] ∧
    ¬ ∃ rest : Err, new_from_file (Except.ok emptyFoundationSettings) =
      .error ("the settings provided are not valid" :: rest) := by
  constructor
  · rfl
  · rintro ⟨rest, h⟩
    have h1 : new_from_file (Except.ok emptyFoundationSettings) =
        .error ["the landscape settings file provided is not valid",
          "foundation cannot be empty"] := rfl
    rw [h1] at h
    simp at h

/-- C4 (amended): when reading and parsing succeed but validation fails,
both loading paths wrap the first violation's message chain under the
top-level context `the landscape settings file provided is not valid`. -/
theorem c4_amended_context (s : LandscapeSettings) (e : Err)
    (h : validate s = .error e) :
    new_from_file (.ok s) =
      .error ("the landscape settings file provided is not valid" :: e) ∧
    new_from_url (.ok s) =
      .error ("the landscape settings file provided is not valid" :: e) := by
  unfold new_from_file new_from_url validateParsed
  dsimp only
  rw [h]
  exact ⟨rfl, rfl⟩

theorem c4_amended_context_witness :
    new_from_file (.ok emptyFoundationSettings) =
      .error ["the landscape settings file provided is not valid",
        "foundation cannot be empty"] ∧
    new_from_url (.ok emptyFoundationSettings) =
      .error ["the landscape settings file provided is not valid",
        "foundation cannot be empty"] :=
  c4_amended_context emptyFoundationSettings ["foundation cannot be empty"] rfl

theorem data_head_append (p t : String) (c : Char) (l : List Char)
    (hp : p.data = c :: l) : (p ++ t).data.head? = some c := by
  rw [String.data_append, hp]
  rfl

theorem singleton_ne_of_head (a b : String)
    (h : a.data.head? ≠ b.data.head?) : ([a] : Err) ≠ [b] := by
  intro he
  injection he with h1 _
  exact h (by rw [h1])

theorem checkMembersCategory_error (s : LandscapeSettings) (e : Err)
    (h : checkMembersCategory s = .error e) :
    e = ["members category cannot be empty"] := by
  unfold checkMembersCategory at h
  split at h
  · split at h
    · injection h with h'
      exact h'.symm
    · exact absurd h (by simp)
  · exact absurd h (by simp)

theorem checkSubcategories_error_shape (cid : String) (l : List String) :
    ∀ (i : Nat) (e : Err), checkSubcategories cid i l = .error e →
      ∃ t, e = ["category [" ++ t] := by
  induction l with
  | nil =>
    intro i e h
    exact absurd h (by simp [checkSubcategories])
  | cons sub rest ih =>
    intro i e h
    simp only [checkSubcategories] at h
    split at h
    · injection h with h'
      exact ⟨cid ++ "]: subcategory [" ++ toString i ++ "] cannot be empty",
        by rw [← h']; simp [String.append_assoc]⟩
    · exact ih (i + 1) e h

theorem checkCategory_error_shape (i : Nat) (cat : Category) (e : Err)
    (h : checkCategory i cat = .error e) : ∃ t, e = ["category [" ++ t] := by
  simp only [checkCategory] at h
  split at h
  · injection h with h'
    exact ⟨toString i ++ "] name cannot be empty",
      by rw [← h']; simp [String.append_assoc]⟩
  · exact checkSubcategories_error_shape cat.name cat.subcategories 0 e h

theorem checkCategories_error_shape (l : List Category) :
    ∀ (i : Nat) (e : Err), checkCategories i l = .error e →
      ∃ t, e = ["category [" ++ t] := by
  induction l with
  | nil =>
    intro i e h
    exact absurd h (by simp [checkCategories])
  | cons cat rest ih =>
    intro i e h
    simp only [checkCategories] at h
    split at h
    · next e2 heq =>
      injection h with h'
      subst h'
      exact checkCategory_error_shape i cat e2 heq
    · exact ih (i + 1) e h

theorem validateCategories_error_shape (x : Option (List Category)) (e : Err)
    (h : validateCategories x = .error e) : ∃ t, e = ["category [" ++ t] := by
  rcases x with _ | l
  · exact absurd h (by simp [validateCategories])
  · exact checkCategories_error_shape l 0 e h

theorem validateColors_error_mem (co : Option Colors) (e : Err)
    (h : validateColors co = .error e) :
    e = ["color1 is not valid (format: \"rgba(0, 107, 204, 1)\")"] ∨
    e = ["color2 is not valid (format: \"rgba(0, 107, 204, 1)\")"] ∨
    e = ["color3 is not valid (format: \"rgba(0, 107, 204, 1)\")"] ∨
    e = ["color4 is not valid (format: \"rgba(0, 107, 204, 1)\")"] ∨
    e = ["color5 is not valid (format: \"rgba(0, 107, 204, 1)\")"] ∨
    e = ["color6 is not valid (format: \"rgba(0, 107, 204, 1)\")"] := by
  rcases co with _ | c
  · exact absurd h (by simp [validateColors])
  · simp only [validateColors, checkColors] at h
    split at h
    · split at h
      · split at h
        · split at h
          · split at h
            · split at h
              · exact absurd h (by simp)
              · injection h with h'
                exact Or.inr (Or.inr (Or.inr (Or.inr (Or.inr h'.symm))))
            · injection h with h'
              exact Or.inr (Or.inr (Or.inr (Or.inr (Or.inl h'.symm))))
          · injection h with h'
            exact Or.inr (Or.inr (Or.inr (Or.inl h'.symm)))
        · injection h with h'
          exact Or.inr (Or.inr (Or.inl h'.symm))
      · injection h with h'
        exact Or.inr (Or.inl h'.symm)
    · injection h with h'
      exact Or.inl h'.symm

theorem checkOptions_error_shape (opts : List FeaturedItemRuleOption) :
    ∀ (ctx : String) (e : Err), checkOptions ctx opts = .error e →
      ∃ m, e = [ctx, m] ∧ (m = "option value cannot be empty" ∨
        m = "option label cannot be empty") := by
  induction opts with
  | nil =>
    intro ctx e h
    exact absurd h (by simp [checkOptions])
  | cons o rest ih =>
    intro ctx e h
    simp only [checkOptions] at h
    split at h
    · injection h with h'
      exact ⟨"option value cannot be empty", h'.symm, Or.inl rfl⟩
    · split at h
      · split at h
        · injection h with h'
          exact ⟨"option label cannot be empty", h'.symm, Or.inr rfl⟩
        · exact ih ctx e h
      · exact ih ctx e h

theorem checkRule_error_shape (i : Nat) (rule : FeaturedItemRule) (e : Err)
    (h : checkRule i rule = .error e) :
    ∃ m, e = [ruleCtx i rule, m] ∧
      m ∈ (["field cannot be empty", "options cannot be empty",
        "option value cannot be empty", "option label cannot be empty"] :
        List String) := by
  simp only [checkRule] at h
  split at h
  · injection h with h'
    exact ⟨"field cannot be empty", h'.symm, by simp⟩
  · split at h
    · injection h with h'
      exact ⟨"options cannot be empty", h'.symm, by simp⟩
    · obtain ⟨m, hm, hmem⟩ :=
        checkOptions_error_shape rule.options (ruleCtx i rule) e h
      refine ⟨m, hm, ?_⟩
      rcases hmem with h1 | h1 <;> simp [h1]

theorem checkRules_error_shape (l : List FeaturedItemRule) :
    ∀ (i : Nat) (e : Err), checkRules i l = .error e →
      ∃ j rule m, l.get? j = some rule ∧ e = [ruleCtx (i + j) rule, m] ∧
        m ∈ (["field cannot be empty", "options cannot be empty",
          "option value cannot be empty", "option label cannot be empty"] :
          List String) := by
  induction l with
  | nil =>
    intro i e h
    exact absurd h (by simp [checkRules])
  | cons r rest ih =>
    intro i e h
    simp only [checkRules] at h
    split at h
    · next e2 heq =>
      injection h with h'
      subst h'
      obtain ⟨m, hm, hmem⟩ := checkRule_error_shape i r e2 heq
      exact ⟨0, r, m, rfl, by simpa using hm, hmem⟩
    · obtain ⟨j, rule, m, hget, hm, hmem⟩ := ih (i + 1) e h
      refine ⟨j + 1, rule, m, by simpa using hget, ?_, hmem⟩
      rw [show i + (j + 1) = i + 1 + j from by omega]
      exact hm

theorem checkGroupCategories_error_shape (gid : String) (l : List CategoryName) :
    ∀ (i : Nat) (e : Err), checkGroupCategories gid i l = .error e →
      ∃ t, e = ["group [" ++ t] := by
  induction l with
  | nil =>
    intro i e h
    exact absurd h (by simp [checkGroupCategories])
  | cons cat rest ih =>
    intro i e h
    simp only [checkGroupCategories] at h
    split at h
    · injection h with h'
      exact ⟨gid ++ "]: category [" ++ toString i ++ "] cannot be empty",
        by rw [← h']; simp [String.append_assoc]⟩
    · exact ih (i + 1) e h

theorem checkGroup_error_shape (i : Nat) (g : Group) (e : Err)
    (h : checkGroup i g = .error e) : ∃ t, e = ["group [" ++ t] := by
  simp only [checkGroup] at h
  split at h
  · injection h with h'
    exact ⟨toString i ++ "] name cannot be empty",
      by rw [← h']; simp [String.append_assoc]⟩
  · exact checkGroupCategories_error_shape g.name g.categories 0 e h

theorem checkGroups_error_shape (l : List Group) :
    ∀ (i : Nat) (e : Err), checkGroups i l = .error e →
      ∃ t, e = ["group [" ++ t] := by
  induction l with
  | nil =>
    intro i e h
    exact absurd h (by simp [checkGroups])
  | cons g rest ih =>
    intro i e h
    simp only [checkGroups] at h
    split at h
    · next e2 heq =>
      injection h with h'
      subst h'
      exact checkGroup_error_shape i g e2 heq
    · exact ih (i + 1) e h

theorem validateGroups_error_shape (x : Option (List Group)) (e : Err)
    (h : validateGroups x = .error e) : ∃ t, e = ["group [" ++ t] := by
  rcases x with _ | l
  · exact absurd h (by simp [validateGroups])
  · exact checkGroups_error_shape l 0 e h

/-- C3: an empty foundation makes `validate` fail with exactly the
foundation error, whatever the other fields hold; a non-empty foundation
means `validate` can never return the foundation error. -/
theorem c3_foundation_check (s : LandscapeSettings) :
    (s.foundation = "" → validate s = .error ["foundation cannot be empty"]) ∧
    (s.foundation ≠ "" →
      validate s ≠ .error ["foundation cannot be empty"]) := by
  constructor
  · intro h0
    rw [validate_eq_runChecks]
    have hf : checkFoundation s = .error ["foundation cannot be empty"] := by
      unfold checkFoundation
      rw [if_pos ((String.isEmpty_iff s.foundation).mpr h0)]
    rw [hf]
    rfl
  · intro hne hcontra
    have hf : checkFoundation s = .ok () := by
      unfold checkFoundation
      rw [if_neg (fun hh => hne ((String.isEmpty_iff s.foundation).mp hh))]
    rw [validate_eq_runChecks, hf] at hcontra
    simp only [runChecks] at hcontra
    cases hmc : checkMembersCategory s with
    | error e2 =>
      rw [hmc] at hcontra
      simp only [runChecks] at hcontra
      injection hcontra with hinj
      rw [checkMembersCategory_error s e2 hmc] at hinj
      exact absurd hinj (by decide)
    | ok v =>
      cases v
      rw [hmc] at hcontra
      simp only [runChecks] at hcontra
      cases hc3 : validateCategories s.categories with
      | error e3 =>
        rw [hc3] at hcontra
        simp only [runChecks] at hcontra
        injection hcontra with hinj
        obtain ⟨t, ht⟩ := validateCategories_error_shape s.categories e3 hc3
        rw [ht] at hinj
        exact singleton_ne_of_head ("category [" ++ t)
          "foundation cannot be empty"
          (by rw [data_head_append "category [" t 'c' _ rfl]; decide) hinj
      | ok v =>
        cases v
        rw [hc3] at hcontra
        simp only [runChecks] at hcontra
        cases hc4 : validateColors s.colors with
        | error e4 =>
          rw [hc4] at hcontra
          simp only [runChecks] at hcontra
          injection hcontra with hinj
          rcases validateColors_error_mem s.colors e4 hc4 with
            h' | h' | h' | h' | h' | h' <;> rw [h'] at hinj <;>
            exact absurd hinj (by decide)
        | ok v =>
          cases v
          rw [hc4] at hcontra
          simp only [runChecks] at hcontra
          cases hc5 : validateFeaturedItems s.featured_items with
          | error e5 =>
            rw [hc5] at hcontra
            simp only [runChecks] at hcontra
            injection hcontra with hinj
            rcases hfi : s.featured_items with _ | l
            · rw [hfi] at hc5
              exact absurd hc5 (by simp [validateFeaturedItems])
            · rw [hfi] at hc5
              obtain ⟨j, rule, m, _, hm, _⟩ :=
                checkRules_error_shape l 0 e5 hc5
              rw [hm] at hinj
              exact absurd hinj (by simp)
          | ok v =>
            cases v
            rw [hc5] at hcontra
            simp only [runChecks] at hcontra
            cases hc6 : validateGroups s.groups with
            | error e6 =>
              rw [hc6] at hcontra
              simp only [runChecks] at hcontra
              injection hcontra with hinj
              obtain ⟨t, ht⟩ := validateGroups_error_shape s.groups e6 hc6
              rw [ht] at hinj
              exact singleton_ne_of_head ("group [" ++ t)
                "foundation cannot be empty"
                (by rw [data_head_append "group [" t 'g' _ rfl]; decide) hinj
            | ok v =>
              cases v
              rw [hc6] at hcontra
              simp only [runChecks] at hcontra
              exact absurd hcontra (by simp)

theorem c3_foundation_check_witness :
    validate emptyFoundationSettings =
      .error ["foundation cannot be empty"] ∧
    validate sampleSettings ≠ .error ["foundation cannot be empty"] :=
  ⟨(c3_foundation_check emptyFoundationSettings).1 rfl,
    (c3_foundation_check sampleSettings).2 (by decide)⟩

theorem checkRules_append (l1 : List FeaturedItemRule) :
    ∀ (i : Nat) (l2 : List FeaturedItemRule),
      checkRules i (l1 ++ l2) =
        match checkRules i l1 with
        | .error e => .error e
        | .ok _ => checkRules (i + l1.length) l2 := by
  induction l1 with
  | nil =>
    intro i l2
    simp [checkRules]
  | cons r rest ih =>
    intro i l2
    rw [List.cons_append]
    simp only [checkRules]
    cases hcr : checkRule i r with
    | error e => rfl
    | ok v =>
      cases v
      rw [ih (i + 1) l2]
      simp only [List.length_cons,
        show i + (rest.length + 1) = i + 1 + rest.length from by omega]

/-- C7: a rule with a non-empty field and no options fails with the
`options cannot be empty` message in a context naming the rule by its
field; every featured-item violation is a two-element chain whose context
names the rule by field name, or by positional index when the field is
empty. -/
theorem c7_featured_items_errors :
    (∀ (pre post : List FeaturedItemRule) (rule : FeaturedItemRule),
      checkRules 0 pre = .ok () → rule.field.isEmpty = false →
      rule.options = [] →
      validateFeaturedItems (some (pre ++ rule :: post)) =
        .error ["rule [" ++ rule.field ++ "] is not valid (field: [" ++
          rule.field ++ "])", "options cannot be empty"]) ∧
    (∀ (rules : List FeaturedItemRule) (e : Err),
      validateFeaturedItems (some rules) = .error e →
      ∃ i rule m, rules.get? i = some rule ∧ e = [ruleCtx i rule, m] ∧
        (rule.field.isEmpty = false → ruleId i rule = rule.field) ∧
        (rule.field.isEmpty = true → ruleId i rule = toString i) ∧
        m ∈ (["field cannot be empty", "options cannot be empty",
          "option value cannot be empty", "option label cannot be empty"] :
          List String)) := by
  constructor
  · intro pre post rule hpre hfield hopts
    show checkRules 0 (pre ++ rule :: post) = _
    rw [checkRules_append pre 0 (rule :: post), hpre]
    simp [checkRules, checkRule, ruleCtx, ruleId, hfield, hopts]
  · intro rules e h
    obtain ⟨j, rule, m, hget, hm, hmem⟩ := checkRules_error_shape rules 0 e h
    refine ⟨j, rule, m, hget, by simpa using hm, ?_, ?_, hmem⟩
    · intro hf
      simp [ruleId, hf]
    · intro ht
      simp [ruleId, ht]

theorem c7_featured_items_errors_witness :
    validateFeaturedItems
        (some [({ field := "maturity", options := [] } : FeaturedItemRule)]) =
      .error ["rule [maturity] is not valid (field: [maturity])",
        "options cannot be empty"] ∧
    (∃ i rule m,
      ([({ field := "", options := [] } : FeaturedItemRule)] :
        List FeaturedItemRule).get? i = some rule ∧
      (["rule [0] is not valid (field: [])", "field cannot be empty"] :
        Err) = [ruleCtx i rule, m] ∧
      (rule.field.isEmpty = false → ruleId i rule = rule.field) ∧
      (rule.field.isEmpty = true → ruleId i rule = toString i) ∧
      m ∈ (["field cannot be empty", "options cannot be empty",
        "option value cannot be empty", "option label cannot be empty"] :
        List String)) :=
  ⟨c7_featured_items_errors.1 [] [] _ rfl rfl rfl,
    c7_featured_items_errors.2 [{ field := "", options := [] }] _ rfl⟩

/-- C10: emptiness of the optional collections themselves is never a
violation: replacing `categories`, `featured_items` and `groups` by empty
lists, or by a named category with no subcategories and a named group
with no category references, keeps a valid settings value valid. -/
theorem c10_empty_collections (s : LandscapeSettings)
    (h : validate s = .ok ()) :
    validate { s with
               categories := some [],
               featured_items := some [],
               groups := some [] } = .ok () ∧
    (∀ n : String, n.isEmpty = false →
      validate { s with
                 categories := some [{ name := n, subcategories := [] }],
                 groups := some [{ name := n, categories := [] }] } =
        .ok ()) := by
  obtain ⟨h1, h2, h3, h4, h5, h6⟩ := validate_ok_parts s h
  constructor
  · apply validate_ok_of_parts
    · simpa [checkFoundation] using h1
    · simpa [checkMembersCategory] using h2
    · rfl
    · simpa using h4
    · rfl
    · rfl
  · intro n hn
    apply validate_ok_of_parts
    · simpa [checkFoundation] using h1
    · simpa [checkMembersCategory] using h2
    · simp [validateCategories, checkCategories, checkCategory,
        checkSubcategories, hn]
    · simpa using h4
    · simpa using h5
    · simp [validateGroups, checkGroups, checkGroup,
        checkGroupCategories, hn]

theorem c10_empty_collections_witness :
    validate sampleSettings = .ok () ∧
    validate { sampleSettings with
               categories := some [],
               featured_items := some [],
               groups := some [] } = .ok () ∧
    validate { sampleSettings with
               categories := some [{ name := "Projects",
                                     subcategories := [] }],
               groups := some [{ name := "Projects", categories := [] }] } =
      .ok () :=
  ⟨rfl, (c10_empty_collections sampleSettings rfl).1,
    (c10_empty_collections sampleSettings rfl).2 "Projects" rfl⟩

end Landscape
